import Mathlib

/-!
Verification of the soil-moisture firmware core
(src/platformio/soil_moisture/src/main.cpp).

The embedding models the per-channel decision engine: raw-to-percent
conversion, the hysteresis filter, the per-channel update performed by
`updateState`, the retry logic of `runPumps`, and one `loop` cycle.
Machine integers are modelled as `Nat` with explicit `% 2^w` where the
source can wrap (the 16-bit sample accumulator, the 8-bit attempt
counter).  The float conversion is modelled in exact rational
arithmetic; the coefficients are the small literals of the source and
the exact computation coincides with the source's 32-bit float
evaluation on the whole `uint16` input domain.
-/

namespace SoilMoisture

/-- Calibration `WET_MEASUREMENT = 150` — sensor submersed in water, 100% level. -/
def WET_MEASUREMENT : Int := 150

/-- Calibration `DRY_MEASUREMENT = 660` — sensor in dry air, 0% level. -/
def DRY_MEASUREMENT : Int := 660

/-- Sample count `NUMBER_OF_MEASUREMENT_SAMPLES = 4`. -/
def NUMBER_OF_MEASUREMENT_SAMPLES : Nat := 4

/-- Channel count `NUMBER_OF_CHANNELS = 4`. -/
def NUMBER_OF_CHANNELS : Nat := 4

/-- Struct `ChannelState_T` — the per-channel mutable state; the constant
hardware-addressing fields (`sensor_analog_pin`, `sensor_dec`, `pump_dec`)
only select the external analog collaborator and are absorbed into
`ChannelInput` below. -/
structure ChannelState_T where
  pump_duration : Nat
  max_pump_attempts : Nat
  pump_attempts : Nat
  moisture_level : Nat
  moisture_level_raw : Nat
  moisture_reference_level : Nat
deriving DecidableEq, Repr

/-- Initial values of the `channel_state` array — all four channels
start with `pump_attempts = 0`, `moisture_level = 99`, raw 0, reference 25. -/
def channel_state_init : List ChannelState_T :=
  [⟨10, 3, 0, 99, 0, 25⟩, ⟨10, 3, 0, 99, 0, 25⟩,
   ⟨10, 3, 0, 99, 0, 25⟩, ⟨10, 3, 0, 99, 0, 25⟩]

/-- Conversion `convertMeasurementToPercent` (main.cpp:117-123):
`a = 100.0/(WET - DRY)`, `b = -DRY*a`, `percentage = measurement*a + b`,
`return (uint8_t)max(0, min(99, percentage))`.  The cast truncates the
clamped non-negative value toward zero, i.e. takes the floor. -/
def convertMeasurementToPercent (measurement : Nat) : Nat :=
  let a : ℚ := 100 / ((WET_MEASUREMENT : ℚ) - (DRY_MEASUREMENT : ℚ))
  let b : ℚ := -(DRY_MEASUREMENT : ℚ) * a
  let percentage : ℚ := (measurement : ℚ) * a + b
  (⌊max 0 (min 99 percentage)⌋).toNat

/-- Tolerance check `almostEqual(a, b, absdiff) = (max(a,b) - min(a,b)) <= absdiff`
(main.cpp:147-149); on `uint8_t` the subtraction cannot underflow. -/
def almostEqual (a b absdiff : Nat) : Bool :=
  max a b - min a b ≤ absdiff

/-- One cycle's analog readings for one channel: `sensorRead j` is the
`analogRead(sensor_analog_pin)` of sample `j`, `refRead j` the
`analogRead(MOIST_REF)` of sample `j`. -/
structure ChannelInput where
  sensorRead : Nat → Nat
  refRead : Nat → Nat

/-- The sampling loop `for j` of `updateState` (main.cpp:164-167): the
running sum is a `uint16_t`, so every addition is taken `% 2^16`. -/
def sampleSum (read : Nat → Nat) : Nat :=
  (List.range NUMBER_OF_MEASUREMENT_SAMPLES).foldl
    (fun acc j => (acc + read j) % 65536) 0

/-- Average `measurement /= NUMBER_OF_MEASUREMENT_SAMPLES` — the averaged raw
moisture value of one cycle. -/
def measuredRaw (inp : ChannelInput) : Nat :=
  sampleSum inp.sensorRead / NUMBER_OF_MEASUREMENT_SAMPLES

/-- The averaged raw reference (potentiometer) value of one cycle. -/
def measuredRawRef (inp : ChannelInput) : Nat :=
  sampleSum inp.refRead / NUMBER_OF_MEASUREMENT_SAMPLES

/-- Percentage `percentage = convertMeasurementToPercent(measurement)`. -/
def measuredPercent (inp : ChannelInput) : Nat :=
  convertMeasurementToPercent (measuredRaw inp)

/-- Reference percentage `percentage_ref = measurement_ref/10` (main.cpp:172). -/
def measuredRefPercent (inp : ChannelInput) : Nat :=
  measuredRawRef inp / 10

/-- The body of `updateState`'s channel loop (main.cpp:155-199): the two
hysteresis-filtered assignments, then the reset-or-force-update decision;
returns the new state and this channel's contribution to `update`. -/
def updateChannel (cs : ChannelState_T) (inp : ChannelInput) :
    ChannelState_T × Bool :=
  let measurement := measuredRaw inp
  let percentage := measuredPercent inp
  let percentage_ref := measuredRefPercent inp
  let step1 : ChannelState_T × Bool :=
    if !almostEqual cs.moisture_level percentage 2 then
      ({ cs with moisture_level := percentage,
                 moisture_level_raw := measurement }, true)
    else (cs, false)
  let cs1 := step1.1
  let step2 : ChannelState_T × Bool :=
    if !almostEqual cs1.moisture_reference_level percentage_ref 2 then
      ({ cs1 with moisture_reference_level := percentage_ref }, true)
    else (cs1, false)
  let cs2 := step2.1
  if cs2.moisture_level ≥ cs2.moisture_reference_level then
    ({ cs2 with pump_attempts := 0 }, step1.2 || step2.2)
  else
    (cs2, true)

/-- Function `updateState` (main.cpp:152-201): every channel is processed
independently and the per-channel update flags are OR-ed into the single
returned boolean, so the left-to-right loop is modelled channelwise. -/
def updateState (states : List ChannelState_T) (inputs : List ChannelInput) :
    List ChannelState_T × Bool :=
  (List.zipWith (fun cs inp => (updateChannel cs inp).1) states inputs,
   (List.zipWith (fun cs inp => (updateChannel cs inp).2) states inputs).any id)

/-- The body of `runPumps`' channel loop (main.cpp:276-300); the `Bool`
records whether this channel's pump was actuated.  `pump_attempts` is a
`uint8_t`, so the increment is taken `% 2^8`. -/
def runPumpChannel (cs : ChannelState_T) : ChannelState_T × Bool :=
  if cs.moisture_level < cs.moisture_reference_level then
    if cs.pump_attempts < cs.max_pump_attempts then
      ({ cs with pump_attempts := (cs.pump_attempts + 1) % 256 }, true)
    else (cs, false)
  else (cs, false)

/-- Function `runPumps` (main.cpp:275-301): sequential per-channel actuation; each
channel's decision depends only on its own state. -/
def runPumps (states : List ChannelState_T) :
    List ChannelState_T × List Bool :=
  (states.map fun cs => (runPumpChannel cs).1,
   states.map fun cs => (runPumpChannel cs).2)

/-- The essential content of one display row drawn by `updateDisplay`
(main.cpp:204-272): the numeric percent and bar are red exactly when the
level is below the reference, the attempt counter is red exactly when the
attempts reached the maximum; the float pixel geometry is hardware
plumbing and not modelled. -/
structure DisplayRow where
  moisture_level : Nat
  moistureWarn : Bool
  moisture_level_raw : Nat
  moisture_reference_level : Nat
  pump_attempts : Nat
  attemptsWarn : Bool
deriving DecidableEq, Repr

/-- The row `updateDisplay` derives from one channel's state. -/
def displayRow (cs : ChannelState_T) : DisplayRow :=
  { moisture_level := cs.moisture_level
    moistureWarn := decide (cs.moisture_level < cs.moisture_reference_level)
    moisture_level_raw := cs.moisture_level_raw
    moisture_reference_level := cs.moisture_reference_level
    pump_attempts := cs.pump_attempts
    attemptsWarn := decide (cs.max_pump_attempts ≤ cs.pump_attempts) }

/-- Observable actions of one `loop` iteration, in the order they happen. -/
inductive Event where
  | render (rows : List DisplayRow)
  | pump (channel : Nat)
deriving DecidableEq, Repr

/-- The pump actuations of `runPumps`, in channel order. -/
def pumpEvents (pumped : List Bool) : List Event :=
  pumped.enum.filterMap fun p =>
    if p.2 then some (Event.pump p.1) else none

/-- One iteration of `loop` (main.cpp:303-320): `updateState`, then — only
when it reported an update — `updateDisplay` followed by `runPumps`; the
sleep is a blocking wait with no state effect. -/
def loopCycle (states : List ChannelState_T) (inputs : List ChannelInput) :
    List ChannelState_T × List Event :=
  let upd := updateState states inputs
  if upd.2 then
    let pr := runPumps upd.1
    (pr.1, Event.render (upd.1.map displayRow) :: pumpEvents pr.2)
  else
    (upd.1, [])

/-- The states the firmware can be in: the initial `channel_state` array,
closed under running one cycle on arbitrary analog readings. -/
inductive Reachable : List ChannelState_T → Prop
  | init : Reachable channel_state_init
  | step (states : List ChannelState_T) (inputs : List ChannelInput) :
      Reachable states → inputs.length = states.length →
      Reachable (loopCycle states inputs).1

/-- The spec's EXHAUSTED state of the RetryStateMachine (§4.4): the level
is below the reference and the attempts have reached the maximum. -/
def exhausted (cs : ChannelState_T) : Prop :=
  cs.moisture_level < cs.moisture_reference_level ∧
  cs.pump_attempts = cs.max_pump_attempts

/-- Per-channel facts that hold in every reachable state: the attempt
counter is bounded by the 8-bit maximum, the filtered level is a clamped
percent, and a channel observed satisfied carries zero attempts. -/
def ChannelInv (cs : ChannelState_T) : Prop :=
  cs.pump_attempts ≤ cs.max_pump_attempts ∧
  cs.max_pump_attempts ≤ 255 ∧
  cs.moisture_level ≤ 99 ∧
  (cs.moisture_reference_level ≤ cs.moisture_level → cs.pump_attempts = 0)

/-- A cycle's readings when the analog collaborator returns the same raw
value on each of the four samples. -/
def constInput (moist ref : Nat) : ChannelInput :=
  ⟨fun _ => moist, fun _ => ref⟩

/-- The channel is observed below its reference once this cycle's sampling
has been folded in — the condition of main.cpp:184 failing. -/
def observedDry (cs : ChannelState_T) (inp : ChannelInput) : Prop :=
  ((updateChannel cs inp).1).moisture_level <
    ((updateChannel cs inp).1).moisture_reference_level

/-- One `loop` iteration of a single-channel system, as a state function. -/
def loopCycle1 (cs : ChannelState_T) (inp : ChannelInput) : ChannelState_T :=
  ((loopCycle [cs] [inp]).1).getD 0 cs

/-- Repeated `loop` iterations of a single-channel system. -/
def loopCycleN (cs : ChannelState_T) (l : List ChannelInput) : ChannelState_T :=
  l.foldl loopCycle1 cs

/-- Closed form of the conversion: with the fixed calibration the exact
value `(measurement - DRY)·100/(WET - DRY)` clamped to `[0, 99]` and
truncated is `99` up to raw 155 and `(6600 - 10·m)/51` beyond (the `Nat`
subtraction and division saturate and floor exactly as the clamp and the
cast do). -/
lemma convertMeasurementToPercent_eval (m : Nat) :
    convertMeasurementToPercent m =
      if m ≤ 155 then 99 else (6600 - 10 * m) / 51 := by
  unfold convertMeasurementToPercent WET_MEASUREMENT DRY_MEASUREMENT
  have ha : (100 : ℚ) / ((150 : Int) - (660 : Int) : ℚ) = -10 / 51 := by
    norm_num
  simp only [ha]
  have hq : (m : ℚ) * (-10 / 51) + -((660 : Int) : ℚ) * (-10 / 51)
      = ((6600 - 10 * (m : Int) : Int) : ℚ) / ((51 : ℕ) : ℚ) := by
    push_cast
    ring
  rw [hq]
  set z : Int := 6600 - 10 * (m : Int) with hz
  rcases le_or_lt ((99 : ℚ)) (((z : Int) : ℚ) / ((51 : ℕ) : ℚ)) with h99 | h99
  · -- the clamp saturates at 99
    rw [min_eq_left h99, max_eq_right (by norm_num : (0:ℚ) ≤ 99)]
    have hm : m ≤ 155 := by
      rw [le_div_iff₀ (by norm_num : (0:ℚ) < ((51:ℕ) : ℚ))] at h99
      have : (5049 : ℚ) ≤ ((z : Int) : ℚ) := by push_cast at h99 ⊢; linarith
      have hz5 : (5049 : Int) ≤ z := by exact_mod_cast this
      omega
    simp [hm]
  · rw [min_eq_right h99.le]
    have hm : ¬ m ≤ 155 := by
      intro hm
      have : ((z : Int) : ℚ) / ((51 : ℕ) : ℚ) < 99 := h99
      rw [div_lt_iff₀ (by norm_num : (0:ℚ) < ((51:ℕ) : ℚ))] at this
      have hz5 : z < 5049 := by exact_mod_cast this
      omega
    rcases le_or_lt ((z : Int) : ℚ) 0 with hneg | hpos
    · -- the clamp saturates at 0
      have hzn : z ≤ 0 := by exact_mod_cast hneg
      have hq0 : ((z : Int) : ℚ) / ((51 : ℕ) : ℚ) ≤ 0 :=
        div_nonpos_iff.2 (Or.inr ⟨hneg, by norm_num⟩)
      rw [max_eq_left hq0, if_neg hm]
      simp only [Int.floor_zero, Int.toNat_zero]
      omega
    · have hzp : 0 < z := by exact_mod_cast hpos
      have hq0 : (0 : ℚ) ≤ ((z : Int) : ℚ) / ((51 : ℕ) : ℚ) :=
        div_nonneg hpos.le (by norm_num)
      rw [max_eq_right hq0, Rat.floor_intCast_div_natCast, if_neg hm]
      omega

/-- The conversion never exceeds the 99% clamp. -/
lemma convertMeasurementToPercent_le_99 (m : Nat) :
    convertMeasurementToPercent m ≤ 99 := by
  rw [convertMeasurementToPercent_eval]
  split <;> omega

/-- The four-sample accumulator loop, unrolled. -/
lemma sampleSum_eq (read : Nat → Nat) :
    sampleSum read =
      ((((0 + read 0) % 65536 + read 1) % 65536 + read 2) % 65536 + read 3)
        % 65536 := rfl

/-- Loop body of `updateState` never touches the configuration fields. -/
lemma updateChannel_config (cs : ChannelState_T) (inp : ChannelInput) :
    ((updateChannel cs inp).1).max_pump_attempts = cs.max_pump_attempts ∧
    ((updateChannel cs inp).1).pump_duration = cs.pump_duration := by
  simp only [updateChannel]
  split_ifs <;> exact ⟨rfl, rfl⟩

/-- The filtered level after `updateState`'s loop body: replaced by the
fresh percentage exactly when the hysteresis filter fires. -/
lemma updateChannel_level (cs : ChannelState_T) (inp : ChannelInput) :
    ((updateChannel cs inp).1).moisture_level =
      if almostEqual cs.moisture_level (measuredPercent inp) 2
      then cs.moisture_level else measuredPercent inp := by
  simp only [updateChannel, Bool.not_eq_eq_eq_not, Bool.not_true]
  split_ifs <;> simp_all

/-- The stored raw value after `updateState`'s loop body: replaced
together with the level, exactly when the moisture filter fires. -/
lemma updateChannel_raw (cs : ChannelState_T) (inp : ChannelInput) :
    ((updateChannel cs inp).1).moisture_level_raw =
      if almostEqual cs.moisture_level (measuredPercent inp) 2
      then cs.moisture_level_raw else measuredRaw inp := by
  simp only [updateChannel, Bool.not_eq_eq_eq_not, Bool.not_true]
  split_ifs <;> simp_all

/-- The filtered reference after `updateState`'s loop body. -/
lemma updateChannel_ref (cs : ChannelState_T) (inp : ChannelInput) :
    ((updateChannel cs inp).1).moisture_reference_level =
      if almostEqual cs.moisture_reference_level (measuredRefPercent inp) 2
      then cs.moisture_reference_level else measuredRefPercent inp := by
  simp only [updateChannel, Bool.not_eq_eq_eq_not, Bool.not_true]
  split_ifs <;> simp_all

/-- The attempt counter after `updateState`'s loop body: reset to zero
exactly when the updated level reaches the updated reference, untouched
otherwise. -/
lemma updateChannel_attempts (cs : ChannelState_T) (inp : ChannelInput) :
    ((updateChannel cs inp).1).pump_attempts =
      if ((updateChannel cs inp).1).moisture_reference_level ≤
           ((updateChannel cs inp).1).moisture_level
      then 0 else cs.pump_attempts := by
  simp only [updateChannel]
  split_ifs <;> simp_all

/-- The update flag contributed by one channel: a fired moisture filter,
a fired reference filter, or a level observed below the reference. -/
lemma updateChannel_flag (cs : ChannelState_T) (inp : ChannelInput) :
    (updateChannel cs inp).2 =
      (!almostEqual cs.moisture_level (measuredPercent inp) 2 ||
       !almostEqual cs.moisture_reference_level (measuredRefPercent inp) 2 ||
       decide (((updateChannel cs inp).1).moisture_level <
               ((updateChannel cs inp).1).moisture_reference_level)) := by
  simp only [updateChannel]
  split_ifs <;> simp_all

/-- Loop body of `runPumps` as a single conditional: the pump fires and the
attempt counter steps exactly when the channel is dry with attempts to
spare. -/
lemma runPumpChannel_eq (cs : ChannelState_T) :
    runPumpChannel cs =
      if cs.moisture_level < cs.moisture_reference_level ∧
         cs.pump_attempts < cs.max_pump_attempts
      then ({ cs with pump_attempts := (cs.pump_attempts + 1) % 256 }, true)
      else (cs, false) := by
  simp only [runPumpChannel]
  split_ifs <;> simp_all

/-- Function `updateState` yields one updated channel per sampled channel. -/
lemma updateState_fst_length (s : List ChannelState_T) (i : List ChannelInput) :
    ((updateState s i).1).length = min s.length i.length := by
  simp [updateState]

/-- Channelwise view of `updateState`'s returned array. -/
lemma updateState_fst_getElem (s : List ChannelState_T) (i : List ChannelInput)
    (k : Nat) (hk : k < s.length) (hki : k < i.length) :
    ((updateState s i).1).get ⟨k, by rw [updateState_fst_length]; omega⟩
      = (updateChannel (s.get ⟨k, hk⟩) (i.get ⟨k, hki⟩)).1 := by
  simp [updateState]

/-- The aggregated `update` boolean is the disjunction of the per-channel
flags. -/
lemma updateState_snd (s : List ChannelState_T) (i : List ChannelInput) :
    (updateState s i).2 = true ↔
      ∃ k, ∃ hk : k < s.length, ∃ hki : k < i.length,
        (updateChannel (s.get ⟨k, hk⟩) (i.get ⟨k, hki⟩)).2 = true := by
  simp only [updateState, List.any_eq_true, id_eq, List.mem_iff_getElem,
    List.length_zipWith, List.getElem_zipWith]
  constructor
  · rintro ⟨x, ⟨k, hk, hfx⟩, hxtrue⟩
    subst hxtrue
    exact ⟨k, by omega, by omega, by simpa using hfx⟩
  · rintro ⟨k, hk, hki, htrue⟩
    exact ⟨true, ⟨k, by omega, by simpa using htrue⟩, rfl⟩

/-- Function `runPumps` yields one channel per input channel. -/
lemma runPumps_fst_length (s : List ChannelState_T) :
    ((runPumps s).1).length = s.length := by
  simp [runPumps]

/-- Channelwise view of `runPumps`' returned array. -/
lemma runPumps_fst_getElem (s : List ChannelState_T) (k : Nat)
    (hk : k < s.length) :
    ((runPumps s).1).get ⟨k, by rw [runPumps_fst_length]; omega⟩
      = (runPumpChannel (s.get ⟨k, hk⟩)).1 := by
  simp [runPumps]

/-- The state after one `loop` iteration: the sampled state, pushed
through `runPumps` exactly when `updateState` reported an update. -/
lemma loopCycle_fst (s : List ChannelState_T) (i : List ChannelInput) :
    (loopCycle s i).1 =
      if (updateState s i).2 then (runPumps (updateState s i).1).1
      else (updateState s i).1 := by
  simp only [loopCycle]
  split <;> rfl

/-- The events of one `loop` iteration: on an update, one render followed
by the pump actuations; otherwise nothing. -/
lemma loopCycle_snd (s : List ChannelState_T) (i : List ChannelInput) :
    (loopCycle s i).2 =
      if (updateState s i).2 then
        Event.render (((updateState s i).1).map displayRow)
          :: pumpEvents (runPumps (updateState s i).1).2
      else [] := by
  simp only [loopCycle]
  split <;> rfl

/-- One `loop` iteration preserves the channel count. -/
lemma loopCycle_fst_length (s : List ChannelState_T) (i : List ChannelInput) :
    ((loopCycle s i).1).length = min s.length i.length := by
  rw [loopCycle_fst]
  split
  · rw [runPumps_fst_length, updateState_fst_length]
  · rw [updateState_fst_length]

/-- Channelwise view of one `loop` iteration. -/
lemma loopCycle_fst_getElem (s : List ChannelState_T) (i : List ChannelInput)
    (k : Nat) (hk : k < s.length) (hki : k < i.length) :
    ((loopCycle s i).1).get ⟨k, by rw [loopCycle_fst_length]; omega⟩
      = (if (updateState s i).2
         then (runPumpChannel ((updateChannel (s.get ⟨k, hk⟩)
                  (i.get ⟨k, hki⟩)).1)).1
         else (updateChannel (s.get ⟨k, hk⟩) (i.get ⟨k, hki⟩)).1) := by
  have hup : k < ((updateState s i).1).length := by
    rw [updateState_fst_length]; omega
  cases hu : (updateState s i).2 with
  | false =>
    have heq : (loopCycle s i).1 = (updateState s i).1 := by
      rw [loopCycle_fst, hu]
      rfl
    rw [if_neg Bool.false_ne_true]
    exact (List.get_of_eq heq _).trans (updateState_fst_getElem s i k hk hki)
  | true =>
    have heq : (loopCycle s i).1 = (runPumps (updateState s i).1).1 := by
      rw [loopCycle_fst, hu]
      rfl
    rw [if_pos rfl]
    exact (List.get_of_eq heq _).trans
      ((runPumps_fst_getElem _ k hup).trans
        (congrArg (fun c => (runPumpChannel c).1)
          (updateState_fst_getElem s i k hk hki)))

/-- The sampling pass preserves the per-channel invariant. -/
lemma channelInv_updateChannel (cs : ChannelState_T) (inp : ChannelInput)
    (h : ChannelInv cs) : ChannelInv ((updateChannel cs inp).1) := by
  obtain ⟨h1, h2, h3, h4⟩ := h
  have hmax := (updateChannel_config cs inp).1
  have hlvl := updateChannel_level cs inp
  have hatt := updateChannel_attempts cs inp
  have hp : measuredPercent inp ≤ 99 := convertMeasurementToPercent_le_99 _
  refine ⟨?_, by omega, ?_, ?_⟩
  · rw [hatt, hmax]
    split <;> omega
  · rw [hlvl]
    split <;> omega
  · intro hw
    rw [hatt, if_pos hw]

/-- The actuation pass preserves the per-channel invariant. -/
lemma channelInv_runPumpChannel (cs : ChannelState_T)
    (h : ChannelInv cs) : ChannelInv ((runPumpChannel cs).1) := by
  obtain ⟨h1, h2, h3, h4⟩ := h
  rw [runPumpChannel_eq]
  split
  · rename_i hc
    obtain ⟨hdry, hlt⟩ := hc
    refine ⟨?_, ?_, ?_, ?_⟩ <;> dsimp only <;> omega
  · exact ⟨h1, h2, h3, h4⟩

/-- Every reachable state satisfies the per-channel invariant. -/
lemma reachable_channelInv (s : List ChannelState_T) (h : Reachable s) :
    ∀ cs ∈ s, ChannelInv cs := by
  induction h with
  | init =>
    intro cs hcs
    simp only [channel_state_init, List.mem_cons, List.mem_singleton,
      List.not_mem_nil, or_false] at hcs
    rcases hcs with rfl | rfl | rfl | rfl <;>
      exact ⟨by norm_num, by norm_num, by norm_num, fun _ => rfl⟩
  | step s inputs hr hlen ih =>
    intro cs hcs
    rw [List.mem_iff_getElem] at hcs
    obtain ⟨k, hk, hkcs⟩ := hcs
    have hks : k < s.length := by
      have := loopCycle_fst_length s inputs
      omega
    have hki : k < inputs.length := by omega
    have hget := loopCycle_fst_getElem s inputs k hks hki
    rw [List.get_eq_getElem] at hget
    rw [hget] at hkcs
    subst hkcs
    have hinv := ih (s.get ⟨k, hks⟩) (s.get_mem _ _)
    split
    · exact channelInv_runPumpChannel _ (channelInv_updateChannel _ _ hinv)
    · exact channelInv_updateChannel _ _ hinv

/-- With identical 10-bit-range samples the accumulator never wraps. -/
lemma sampleSum_const (m r : Nat) (h : m ≤ 16383) :
    sampleSum (constInput m r).sensorRead = 4 * m := by
  rw [sampleSum_eq]
  simp only [constInput]
  omega

/-- The reference samples behave the same way. -/
lemma sampleSum_const_ref (m r : Nat) (h : r ≤ 16383) :
    sampleSum (constInput m r).refRead = 4 * r := by
  rw [sampleSum_eq]
  simp only [constInput]
  omega

/-- Averaging four identical in-range samples returns the sample. -/
lemma measuredRaw_const (m r : Nat) (h : m ≤ 16383) :
    measuredRaw (constInput m r) = m := by
  rw [measuredRaw, sampleSum_const m r h]
  simp only [NUMBER_OF_MEASUREMENT_SAMPLES]
  omega

/-- Averaging four identical in-range reference samples. -/
lemma measuredRawRef_const (m r : Nat) (h : r ≤ 16383) :
    measuredRawRef (constInput m r) = r := by
  rw [measuredRawRef, sampleSum_const_ref m r h]
  simp only [NUMBER_OF_MEASUREMENT_SAMPLES]
  omega

/-- Percentage of a cycle of identical in-range moisture samples. -/
lemma measuredPercent_const (m r : Nat) (h : m ≤ 16383) :
    measuredPercent (constInput m r) = convertMeasurementToPercent m := by
  rw [measuredPercent, measuredRaw_const m r h]

/-- Reference percentage of a cycle of identical in-range samples. -/
lemma measuredRefPercent_const (m r : Nat) (h : r ≤ 16383) :
    measuredRefPercent (constInput m r) = r / 10 := by
  rw [measuredRefPercent, measuredRawRef_const m r h]

/-- A channel observed below its reference forces the update flag
(main.cpp:187). -/
lemma updateChannel_flag_of_dry (cs : ChannelState_T) (inp : ChannelInput)
    (h : observedDry cs inp) : (updateChannel cs inp).2 = true := by
  rw [updateChannel_flag]
  simp [observedDry] at h
  simp [h]

/-- One `loop` iteration of a single-channel system, unfolded. -/
lemma loopCycle_singleton (cs : ChannelState_T) (inp : ChannelInput) :
    loopCycle [cs] [inp] =
      if (updateChannel cs inp).2
      then ([(runPumpChannel (updateChannel cs inp).1).1],
            Event.render [displayRow (updateChannel cs inp).1]
              :: pumpEvents [(runPumpChannel (updateChannel cs inp).1).2])
      else ([(updateChannel cs inp).1], []) := by
  simp only [loopCycle, updateState, runPumps, List.zipWith, List.any_cons,
    List.any_nil, id_eq, Bool.or_false, List.map_cons, List.map_nil]

/-- The single-channel state function, unfolded. -/
lemma loopCycle1_eq (cs : ChannelState_T) (inp : ChannelInput) :
    loopCycle1 cs inp =
      if (updateChannel cs inp).2
      then (runPumpChannel (updateChannel cs inp).1).1
      else (updateChannel cs inp).1 := by
  rw [loopCycle1, loopCycle_singleton]
  split <;> rfl

/-- A dry observation routes the single-channel cycle through the pump
pass. -/
lemma loopCycle1_dry (cs : ChannelState_T) (inp : ChannelInput)
    (h : observedDry cs inp) :
    loopCycle1 cs inp = (runPumpChannel (updateChannel cs inp).1).1 := by
  rw [loopCycle1_eq, if_pos (updateChannel_flag_of_dry cs inp h)]

/-- The single-channel cycle never touches the configuration fields. -/
lemma loopCycle1_config (cs : ChannelState_T) (inp : ChannelInput) :
    (loopCycle1 cs inp).max_pump_attempts = cs.max_pump_attempts ∧
    (loopCycle1 cs inp).pump_duration = cs.pump_duration := by
  have h1 := updateChannel_config cs inp
  rw [loopCycle1_eq]
  split
  · rw [runPumpChannel_eq]
    split <;> exact h1
  · exact h1

/-- After a dry observation the cycle's final level and reference are the
sampled ones, and the attempt counter steps when it has room. -/
lemma loopCycle1_dry_spec (cs : ChannelState_T) (inp : ChannelInput)
    (h : observedDry cs inp) :
    (loopCycle1 cs inp).moisture_level =
      ((updateChannel cs inp).1).moisture_level ∧
    (loopCycle1 cs inp).moisture_reference_level =
      ((updateChannel cs inp).1).moisture_reference_level ∧
    (loopCycle1 cs inp).pump_attempts =
      (if cs.pump_attempts < cs.max_pump_attempts
       then (cs.pump_attempts + 1) % 256 else cs.pump_attempts) := by
  have hd : ((updateChannel cs inp).1).moisture_level <
      ((updateChannel cs inp).1).moisture_reference_level := h
  have hatt := updateChannel_attempts cs inp
  rw [if_neg (by omega)] at hatt
  have hmax := (updateChannel_config cs inp).1
  rw [loopCycle1_dry cs inp h, runPumpChannel_eq]
  split
  · rename_i hc
    refine ⟨rfl, rfl, ?_⟩
    rw [if_pos (by omega)]
    dsimp only
    omega
  · rename_i hc
    rw [hatt] at hc
    rw [hmax] at hc
    refine ⟨rfl, rfl, ?_⟩
    rw [if_neg (by omega), hatt]

/-- A satisfied observation resets the attempt counter, whether or not
the cycle goes on to run the pumps. -/
lemma loopCycle1_wet (cs : ChannelState_T) (inp : ChannelInput)
    (h : ((updateChannel cs inp).1).moisture_reference_level ≤
         ((updateChannel cs inp).1).moisture_level) :
    (loopCycle1 cs inp).pump_attempts = 0 := by
  have hatt := updateChannel_attempts cs inp
  rw [if_pos h] at hatt
  rw [loopCycle1_eq]
  split
  · rw [runPumpChannel_eq, if_neg (by omega)]
    exact hatt
  · exact hatt

/-- The net effect of one cycle on a channel's attempt counter: it never
decreases, except that a satisfied observation resets it to zero. -/
lemma cycleChannel_attempts (cs : ChannelState_T) (inp : ChannelInput)
    (hinv : ChannelInv cs) (pump : Bool) :
    cs.pump_attempts ≤
        ((if pump then (runPumpChannel (updateChannel cs inp).1).1
          else (updateChannel cs inp).1)).pump_attempts ∨
      (((if pump then (runPumpChannel (updateChannel cs inp).1).1
          else (updateChannel cs inp).1)).pump_attempts = 0 ∧
       ((if pump then (runPumpChannel (updateChannel cs inp).1).1
          else (updateChannel cs inp).1)).moisture_reference_level ≤
         ((if pump then (runPumpChannel (updateChannel cs inp).1).1
            else (updateChannel cs inp).1)).moisture_level) := by
  obtain ⟨h1, h2, h3, h4⟩ := hinv
  have hatt := updateChannel_attempts cs inp
  have hmax := (updateChannel_config cs inp).1
  cases pump with
  | false =>
    simp only [Bool.false_eq_true, if_false]
    by_cases hw : ((updateChannel cs inp).1).moisture_reference_level ≤
        ((updateChannel cs inp).1).moisture_level
    · right
      rw [hatt, if_pos hw]
      exact ⟨rfl, hw⟩
    · left
      rw [hatt, if_neg hw]
  | true =>
    simp only [if_true]
    rw [runPumpChannel_eq]
    split
    · rename_i hc
      left
      rw [hatt, if_neg (by omega)] at hc ⊢
      dsimp only
      rw [hmax] at hc
      omega
    · by_cases hw : ((updateChannel cs inp).1).moisture_reference_level ≤
          ((updateChannel cs inp).1).moisture_level
      · right
        rw [hatt, if_pos hw]
        exact ⟨rfl, hw⟩
      · left
        rw [hatt, if_neg hw]

/-- A channel whose readings pass both filters unchanged and whose level
meets its reference is left exactly as it was, contributing no update. -/
lemma updateChannel_quiet (cs : ChannelState_T) (inp : ChannelInput)
    (h0 : cs.pump_attempts = 0)
    (h1 : almostEqual cs.moisture_level (measuredPercent inp) 2 = true)
    (h2 : almostEqual cs.moisture_reference_level (measuredRefPercent inp) 2
            = true)
    (h3 : cs.moisture_reference_level ≤ cs.moisture_level) :
    updateChannel cs inp = (cs, false) := by
  cases cs with
  | mk pd mx pa lvl raw ref =>
    simp only at h0 h1 h2 h3
    subst h0
    simp [updateChannel, h1, h2, h3]

/-- A cycle of identical in-range readings, folded through the channel
update: the same conditional structure evaluated at the concrete percent,
reference percent and raw average. -/
lemma updateChannel_const_eval (cs : ChannelState_T) (m r : Nat)
    (hm : m ≤ 16383) (hr : r ≤ 16383) :
    updateChannel cs (constInput m r) =
      (let percentage := convertMeasurementToPercent m
       let percentage_ref := r / 10
       let step1 : ChannelState_T × Bool :=
         if !almostEqual cs.moisture_level percentage 2 then
           ({ cs with moisture_level := percentage,
                      moisture_level_raw := m }, true)
         else (cs, false)
       let step2 : ChannelState_T × Bool :=
         if !almostEqual (step1.1).moisture_reference_level percentage_ref 2
         then ({ step1.1 with moisture_reference_level := percentage_ref },
               true)
         else (step1.1, false)
       if (step2.1).moisture_reference_level ≤ (step2.1).moisture_level then
         ({ step2.1 with pump_attempts := 0 }, step1.2 || step2.2)
       else (step2.1, true)) := by
  simp only [updateChannel, measuredPercent_const m r hm,
    measuredRaw_const m r hm, measuredRefPercent_const m r hr]

/-- The single-channel cycle preserves the per-channel invariant. -/
lemma channelInv_loopCycle1 (cs : ChannelState_T) (inp : ChannelInput)
    (h : ChannelInv cs) : ChannelInv (loopCycle1 cs inp) := by
  rw [loopCycle1_eq]
  split
  · exact channelInv_runPumpChannel _ (channelInv_updateChannel cs inp h)
  · exact channelInv_updateChannel cs inp h

/-- C3: `convertMeasurementToPercent` returns 99 for every raw value at
or below the WET calibration (150), 0 for every raw value at or above
the DRY calibration (660), is monotonically non-increasing in the raw
value, and maps 150 to 99, 660 to 0 and the midpoint 405 to 50, i.e. to
within one point of 49. -/
theorem C3_converter_saturation_monotone_endpoints :
    (∀ raw : Nat, raw ≤ 150 → convertMeasurementToPercent raw = 99) ∧
    (∀ raw : Nat, 660 ≤ raw → convertMeasurementToPercent raw = 0) ∧
    (∀ r1 r2 : Nat, r1 ≤ r2 →
        convertMeasurementToPercent r2 ≤ convertMeasurementToPercent r1) ∧
    convertMeasurementToPercent 150 = 99 ∧
    convertMeasurementToPercent 660 = 0 ∧
    convertMeasurementToPercent 405 = 50 ∧
    49 ≤ convertMeasurementToPercent 405 ∧
    convertMeasurementToPercent 405 ≤ 50 := by
  refine ⟨?_, ?_, ?_, ?_, ?_, ?_, ?_, ?_⟩
  · intro raw h
    rw [convertMeasurementToPercent_eval]
    split <;> omega
  · intro raw h
    rw [convertMeasurementToPercent_eval]
    split <;> omega
  · intro r1 r2 h
    rw [convertMeasurementToPercent_eval, convertMeasurementToPercent_eval]
    split <;> split <;> omega
  · rw [convertMeasurementToPercent_eval]
    decide
  · rw [convertMeasurementToPercent_eval]
    decide
  · rw [convertMeasurementToPercent_eval]
    decide
  · rw [convertMeasurementToPercent_eval]
    decide
  · rw [convertMeasurementToPercent_eval]
    decide

/-- Witness for C3 at concrete raw values 100, 1000 and the pair
300 ≤ 500. -/
theorem C3_witness :
    convertMeasurementToPercent 100 = 99 ∧
    convertMeasurementToPercent 1000 = 0 ∧
    convertMeasurementToPercent 500 ≤ convertMeasurementToPercent 300 :=
  ⟨C3_converter_saturation_monotone_endpoints.1 100 (by norm_num),
   C3_converter_saturation_monotone_endpoints.2.1 1000 (by norm_num),
   C3_converter_saturation_monotone_endpoints.2.2.1 300 500 (by norm_num)⟩

/-- C4: the change predicate `!almostEqual` is reflexively false for
every tolerance, computes exactly the integer condition
`|x − y| > t`, is symmetric, and `updateState` applies it with fixed
tolerance 2 to both the moisture and the reference reading. -/
theorem C4_hysteresis_change_predicate :
    (∀ x t : Nat, (!almostEqual x x t) = false) ∧
    (∀ x y t : Nat,
        ((!almostEqual x y t) = true ↔ ((x : Int) - (y : Int)).natAbs > t)) ∧
    (∀ x y t : Nat, almostEqual x y t = almostEqual y x t) ∧
    (∀ (cs : ChannelState_T) (inp : ChannelInput),
      ((updateChannel cs inp).1).moisture_level =
        (if !almostEqual cs.moisture_level (measuredPercent inp) 2
         then measuredPercent inp else cs.moisture_level) ∧
      ((updateChannel cs inp).1).moisture_reference_level =
        (if !almostEqual cs.moisture_reference_level
              (measuredRefPercent inp) 2
         then measuredRefPercent inp
         else cs.moisture_reference_level)) := by
  refine ⟨?_, ?_, ?_, ?_⟩
  · intro x t
    simp [almostEqual]
  · intro x y t
    simp only [almostEqual, Bool.not_eq_true', decide_eq_false_iff_not,
      not_le]
    omega
  · intro x y t
    simp [almostEqual, Nat.max_comm, Nat.min_comm]
  · intro cs inp
    constructor
    · rw [updateChannel_level]
      rcases h : almostEqual cs.moisture_level (measuredPercent inp) 2 <;>
        simp [h]
    · rw [updateChannel_ref]
      rcases h : almostEqual cs.moisture_reference_level
          (measuredRefPercent inp) 2 <;>
        simp [h]

/-- C9: with the configured 4 samples and 10-bit readings, the 16-bit
accumulators never wrap, and the reported raw values are the exact
integer-division averages of the four samples. -/
theorem C9_sampling_sums_no_wrap (inp : ChannelInput)
    (hs : ∀ j, j < NUMBER_OF_MEASUREMENT_SAMPLES → inp.sensorRead j ≤ 1023)
    (hr : ∀ j, j < NUMBER_OF_MEASUREMENT_SAMPLES → inp.refRead j ≤ 1023) :
    sampleSum inp.sensorRead =
      inp.sensorRead 0 + inp.sensorRead 1 + inp.sensorRead 2 +
        inp.sensorRead 3 ∧
    sampleSum inp.refRead =
      inp.refRead 0 + inp.refRead 1 + inp.refRead 2 + inp.refRead 3 ∧
    measuredRaw inp =
      (inp.sensorRead 0 + inp.sensorRead 1 + inp.sensorRead 2 +
        inp.sensorRead 3) / 4 ∧
    measuredRawRef inp =
      (inp.refRead 0 + inp.refRead 1 + inp.refRead 2 + inp.refRead 3) / 4
    := by
  have hs0 := hs 0 (by norm_num [NUMBER_OF_MEASUREMENT_SAMPLES])
  have hs1 := hs 1 (by norm_num [NUMBER_OF_MEASUREMENT_SAMPLES])
  have hs2 := hs 2 (by norm_num [NUMBER_OF_MEASUREMENT_SAMPLES])
  have hs3 := hs 3 (by norm_num [NUMBER_OF_MEASUREMENT_SAMPLES])
  have hr0 := hr 0 (by norm_num [NUMBER_OF_MEASUREMENT_SAMPLES])
  have hr1 := hr 1 (by norm_num [NUMBER_OF_MEASUREMENT_SAMPLES])
  have hr2 := hr 2 (by norm_num [NUMBER_OF_MEASUREMENT_SAMPLES])
  have hr3 := hr 3 (by norm_num [NUMBER_OF_MEASUREMENT_SAMPLES])
  refine ⟨?_, ?_, ?_, ?_⟩
  · rw [sampleSum_eq]
    omega
  · rw [sampleSum_eq]
    omega
  · rw [measuredRaw, sampleSum_eq]
    simp only [NUMBER_OF_MEASUREMENT_SAMPLES]
    omega
  · rw [measuredRawRef, sampleSum_eq]
    simp only [NUMBER_OF_MEASUREMENT_SAMPLES]
    omega

/-- Witness for C9 with four constant 600/500 readings. -/
theorem C9_witness :
    sampleSum (constInput 600 500).sensorRead = 600 + 600 + 600 + 600 ∧
    sampleSum (constInput 600 500).refRead = 500 + 500 + 500 + 500 ∧
    measuredRaw (constInput 600 500) = (600 + 600 + 600 + 600) / 4 ∧
    measuredRawRef (constInput 600 500) = (500 + 500 + 500 + 500) / 4 :=
  C9_sampling_sums_no_wrap (constInput 600 500)
    (fun j _ => by norm_num [constInput])
    (fun j _ => by norm_num [constInput])

/-- Counterexample to C8: starting from channel 0's initial state
(level 99, raw 0) a cycle of constant raw 150 readings averages to a raw
sample of 150 yet converts to 99, so the moisture filter reports no
change and `moisture_level_raw` keeps its old value 0 instead of the
last raw sample 150. -/
theorem C8_counterexample :
    measuredRaw (constInput 150 250) = 150 ∧
    ((updateChannel (channel_state_init.get ⟨0, by norm_num [channel_state_init]⟩)
        (constInput 150 250)).1).moisture_level_raw = 0 ∧
    ((updateChannel (channel_state_init.get ⟨0, by norm_num [channel_state_init]⟩)
        (constInput 150 250)).1).moisture_level_raw ≠
      measuredRaw (constInput 150 250) := by
  have h1 : measuredRaw (constInput 150 250) = 150 :=
    measuredRaw_const 150 250 (by norm_num)
  have h2 : ((updateChannel (channel_state_init.get
      ⟨0, by norm_num [channel_state_init]⟩) (constInput 150 250)).1).moisture_level_raw = 0 := by
    rw [show channel_state_init.get ⟨0, by norm_num [channel_state_init]⟩
          = ⟨10, 3, 0, 99, 0, 25⟩ from rfl]
    rw [updateChannel_const_eval _ 150 250 (by norm_num) (by norm_num),
      convertMeasurementToPercent_eval]
    decide
  exact ⟨h1, h2, by omega⟩

/-- C8 (amended): `moisture_level` and `moisture_level_raw` are updated
together, exactly when the moisture hysteresis filter reports a change;
when it reports no change both stay at their previous values, so
`moisture_level_raw` holds the averaged raw sample of the last cycle in
which the filter fired, not necessarily the last sample taken. -/
theorem C8_raw_and_level_update_with_filter
    (cs : ChannelState_T) (inp : ChannelInput) :
    (almostEqual cs.moisture_level (measuredPercent inp) 2 = true →
      ((updateChannel cs inp).1).moisture_level = cs.moisture_level ∧
      ((updateChannel cs inp).1).moisture_level_raw =
        cs.moisture_level_raw) ∧
    (almostEqual cs.moisture_level (measuredPercent inp) 2 = false →
      ((updateChannel cs inp).1).moisture_level = measuredPercent inp ∧
      ((updateChannel cs inp).1).moisture_level_raw = measuredRaw inp) := by
  have hl := updateChannel_level cs inp
  have hraw := updateChannel_raw cs inp
  constructor
  · intro h
    rw [hl, hraw, if_pos h, if_pos h]
    exact ⟨rfl, rfl⟩
  · intro h
    rw [hl, hraw, if_neg (by simp [h]), if_neg (by simp [h])]
    exact ⟨rfl, rfl⟩

/-- Witness for the amended C8: a quiet reading (150 on a level-99
channel) leaves level and raw unchanged, a changed reading (660) moves
both. -/
theorem C8_witness :
    (((updateChannel ⟨10, 3, 0, 99, 0, 25⟩ (constInput 150 250)).1).moisture_level
        = (⟨10, 3, 0, 99, 0, 25⟩ : ChannelState_T).moisture_level ∧
     ((updateChannel ⟨10, 3, 0, 99, 0, 25⟩ (constInput 150 250)).1).moisture_level_raw
        = (⟨10, 3, 0, 99, 0, 25⟩ : ChannelState_T).moisture_level_raw) ∧
    (((updateChannel ⟨10, 3, 0, 99, 0, 25⟩ (constInput 660 250)).1).moisture_level
        = measuredPercent (constInput 660 250) ∧
     ((updateChannel ⟨10, 3, 0, 99, 0, 25⟩ (constInput 660 250)).1).moisture_level_raw
        = measuredRaw (constInput 660 250)) :=
  ⟨(C8_raw_and_level_update_with_filter ⟨10, 3, 0, 99, 0, 25⟩
      (constInput 150 250)).1
    (by rw [measuredPercent_const 150 250 (by norm_num),
          convertMeasurementToPercent_eval]
        decide),
   (C8_raw_and_level_update_with_filter ⟨10, 3, 0, 99, 0, 25⟩
      (constInput 660 250)).2
    (by rw [measuredPercent_const 660 250 (by norm_num),
          convertMeasurementToPercent_eval]
        decide)⟩

/-- C2: starting from zero attempts with maximum 3, three consecutive
dry observations drive the attempt counter through 1, 2, 3 and leave the
channel EXHAUSTED; a channel observed dry with the counter at the
maximum causes no pump actuation (the cycle's only event is the render)
and keeps the counter pinned; and any cycle whose observation meets the
reference resets the counter to 0 regardless of its prior value. -/
theorem C2_retry_three_cycles_exhaust_and_reset
    (c0 : ChannelState_T) (i1 i2 i3 : ChannelInput)
    (h0 : c0.pump_attempts = 0) (hmax : c0.max_pump_attempts = 3)
    (hd1 : observedDry c0 i1)
    (hd2 : observedDry (loopCycle1 c0 i1) i2)
    (hd3 : observedDry (loopCycle1 (loopCycle1 c0 i1) i2) i3) :
    (loopCycle1 c0 i1).pump_attempts = 1 ∧
    (loopCycle1 (loopCycle1 c0 i1) i2).pump_attempts = 2 ∧
    (loopCycle1 (loopCycle1 (loopCycle1 c0 i1) i2) i3).pump_attempts = 3 ∧
    exhausted (loopCycle1 (loopCycle1 (loopCycle1 c0 i1) i2) i3) ∧
    (∀ (cs : ChannelState_T) (inp : ChannelInput), observedDry cs inp →
      cs.pump_attempts = cs.max_pump_attempts →
      (loopCycle [cs] [inp]).2 =
        [Event.render [displayRow (updateChannel cs inp).1]] ∧
      (loopCycle1 cs inp).pump_attempts = cs.pump_attempts) ∧
    (∀ (cs : ChannelState_T) (inp : ChannelInput),
      ((updateChannel cs inp).1).moisture_reference_level ≤
        ((updateChannel cs inp).1).moisture_level →
      (loopCycle1 cs inp).pump_attempts = 0) := by
  have hm1 : (loopCycle1 c0 i1).max_pump_attempts = 3 := by
    rw [(loopCycle1_config c0 i1).1, hmax]
  have hm2 : (loopCycle1 (loopCycle1 c0 i1) i2).max_pump_attempts = 3 := by
    rw [(loopCycle1_config _ i2).1, hm1]
  have hm3 : (loopCycle1 (loopCycle1 (loopCycle1 c0 i1) i2)
      i3).max_pump_attempts = 3 := by
    rw [(loopCycle1_config _ i3).1, hm2]
  have a1 : (loopCycle1 c0 i1).pump_attempts = 1 := by
    rw [(loopCycle1_dry_spec c0 i1 hd1).2.2, h0, hmax]
    decide
  have a2 : (loopCycle1 (loopCycle1 c0 i1) i2).pump_attempts = 2 := by
    rw [(loopCycle1_dry_spec _ i2 hd2).2.2, a1, hm1]
    decide
  have a3 : (loopCycle1 (loopCycle1 (loopCycle1 c0 i1) i2)
      i3).pump_attempts = 3 := by
    rw [(loopCycle1_dry_spec _ i3 hd3).2.2, a2, hm2]
    decide
  refine ⟨a1, a2, a3, ⟨?_, ?_⟩, ?_, ?_⟩
  · rw [(loopCycle1_dry_spec _ i3 hd3).1, (loopCycle1_dry_spec _ i3 hd3).2.1]
    exact hd3
  · rw [a3, hm3]
  · intro cs inp hdry hattmax
    have hu := updateChannel_flag_of_dry cs inp hdry
    have humax := (updateChannel_config cs inp).1
    have hattu : ((updateChannel cs inp).1).pump_attempts =
        cs.pump_attempts := by
      rw [updateChannel_attempts,
        if_neg (by unfold observedDry at hdry; omega)]
    have hflag2 : (runPumpChannel (updateChannel cs inp).1).2 = false := by
      rw [runPumpChannel_eq]
      split
      · rename_i hc
        exfalso
        omega
      · rfl
    refine ⟨?_, ?_⟩
    · rw [loopCycle_singleton, if_pos hu]
      dsimp only
      rw [hflag2]
      rfl
    · rw [(loopCycle1_dry_spec cs inp hdry).2.2, if_neg (by omega)]
  · intro cs inp hw
    exact loopCycle1_wet cs inp hw

/-- One dry cycle on channel 0's initial state: both filters fire and
the pump runs once. -/
lemma wit_cycle1 :
    loopCycle1 ⟨10, 3, 0, 99, 0, 25⟩ (constInput 660 400)
      = ⟨10, 3, 1, 0, 660, 40⟩ := by
  rw [loopCycle1_eq,
    updateChannel_const_eval _ 660 400 (by norm_num) (by norm_num),
    convertMeasurementToPercent_eval]
  decide

/-- A second identical dry cycle only steps the counter. -/
lemma wit_cycle2 :
    loopCycle1 ⟨10, 3, 1, 0, 660, 40⟩ (constInput 660 400)
      = ⟨10, 3, 2, 0, 660, 40⟩ := by
  rw [loopCycle1_eq,
    updateChannel_const_eval _ 660 400 (by norm_num) (by norm_num),
    convertMeasurementToPercent_eval]
  decide

/-- A third identical dry cycle reaches the maximum. -/
lemma wit_cycle3 :
    loopCycle1 ⟨10, 3, 2, 0, 660, 40⟩ (constInput 660 400)
      = ⟨10, 3, 3, 0, 660, 40⟩ := by
  rw [loopCycle1_eq,
    updateChannel_const_eval _ 660 400 (by norm_num) (by norm_num),
    convertMeasurementToPercent_eval]
  decide

/-- The initial channel sampled at raw 660 with reference raw 400 is
observed dry. -/
lemma wit_dry1 : observedDry ⟨10, 3, 0, 99, 0, 25⟩ (constInput 660 400) := by
  unfold observedDry
  rw [updateChannel_const_eval _ 660 400 (by norm_num) (by norm_num),
    convertMeasurementToPercent_eval]
  decide

/-- The once-pumped channel is still observed dry on the same readings. -/
lemma wit_dry2 : observedDry ⟨10, 3, 1, 0, 660, 40⟩ (constInput 660 400) := by
  unfold observedDry
  rw [updateChannel_const_eval _ 660 400 (by norm_num) (by norm_num),
    convertMeasurementToPercent_eval]
  decide

/-- The twice-pumped channel is still observed dry on the same readings. -/
lemma wit_dry3 : observedDry ⟨10, 3, 2, 0, 660, 40⟩ (constInput 660 400) := by
  unfold observedDry
  rw [updateChannel_const_eval _ 660 400 (by norm_num) (by norm_num),
    convertMeasurementToPercent_eval]
  decide

/-- Witness for C2: channel 0's initial state under three cycles of
constant raw-660 readings against a potentiometer at raw 400. -/
theorem C2_witness :
    (loopCycle1 ⟨10, 3, 0, 99, 0, 25⟩ (constInput 660 400)).pump_attempts
        = 1 ∧
    (loopCycle1 (loopCycle1 ⟨10, 3, 0, 99, 0, 25⟩ (constInput 660 400))
        (constInput 660 400)).pump_attempts = 2 ∧
    (loopCycle1 (loopCycle1 (loopCycle1 ⟨10, 3, 0, 99, 0, 25⟩
        (constInput 660 400)) (constInput 660 400))
        (constInput 660 400)).pump_attempts = 3 ∧
    exhausted (loopCycle1 (loopCycle1 (loopCycle1 ⟨10, 3, 0, 99, 0, 25⟩
        (constInput 660 400)) (constInput 660 400)) (constInput 660 400)) ∧
    (∀ (cs : ChannelState_T) (inp : ChannelInput), observedDry cs inp →
      cs.pump_attempts = cs.max_pump_attempts →
      (loopCycle [cs] [inp]).2 =
        [Event.render [displayRow (updateChannel cs inp).1]] ∧
      (loopCycle1 cs inp).pump_attempts = cs.pump_attempts) ∧
    (∀ (cs : ChannelState_T) (inp : ChannelInput),
      ((updateChannel cs inp).1).moisture_reference_level ≤
        ((updateChannel cs inp).1).moisture_level →
      (loopCycle1 cs inp).pump_attempts = 0) :=
  C2_retry_three_cycles_exhaust_and_reset ⟨10, 3, 0, 99, 0, 25⟩
    (constInput 660 400) (constInput 660 400) (constInput 660 400)
    rfl rfl wit_dry1
    (by rw [wit_cycle1]; exact wit_dry2)
    (by rw [wit_cycle1, wit_cycle2]; exact wit_dry3)

/-- C10: the filtered reference derived from a 10-bit reading lies in
0..102 while the moisture level always lies in 0..99; hence once the
filtered reference settles strictly above 99 the recovery comparison can
never succeed, the attempt counter is never reset, and after
`max_pump_attempts` further dry cycles it pins at the maximum — the
channel stays EXHAUSTED until the reference reading drops. -/
theorem C10_reference_above_99_locks_exhaustion :
    (∀ inp : ChannelInput,
        (∀ j, j < NUMBER_OF_MEASUREMENT_SAMPLES → inp.refRead j ≤ 1023) →
        measuredRefPercent inp ≤ 102) ∧
    (∀ s, Reachable s → ∀ cs ∈ s, cs.moisture_level ≤ 99) ∧
    (∀ (cs : ChannelState_T) (inp : ChannelInput), cs.moisture_level ≤ 99 →
        99 < ((updateChannel cs inp).1).moisture_reference_level →
        observedDry cs inp ∧
        ((updateChannel cs inp).1).pump_attempts = cs.pump_attempts) ∧
    (∀ (cs : ChannelState_T) (l : List ChannelInput), ChannelInv cs →
        (∀ (cs2 : ChannelState_T) (inp : ChannelInput), inp ∈ l →
          99 < ((updateChannel cs2 inp).1).moisture_reference_level) →
        (loopCycleN cs l).pump_attempts =
          min (cs.pump_attempts + l.length) cs.max_pump_attempts) := by
  have hdry_of : ∀ (cs : ChannelState_T) (inp : ChannelInput),
      cs.moisture_level ≤ 99 →
      99 < ((updateChannel cs inp).1).moisture_reference_level →
      observedDry cs inp := by
    intro cs inp h99 href
    have hlvl := updateChannel_level cs inp
    have hp : measuredPercent inp ≤ 99 := convertMeasurementToPercent_le_99 _
    have hlvl99 : ((updateChannel cs inp).1).moisture_level ≤ 99 := by
      rw [hlvl]
      split <;> omega
    unfold observedDry
    omega
  have main : ∀ (l : List ChannelInput) (cs : ChannelState_T), ChannelInv cs →
      (∀ (cs2 : ChannelState_T) (inp : ChannelInput), inp ∈ l →
        99 < ((updateChannel cs2 inp).1).moisture_reference_level) →
      (loopCycleN cs l).pump_attempts =
        min (cs.pump_attempts + l.length) cs.max_pump_attempts := by
    intro l
    induction l with
    | nil =>
      intro cs hinv hall
      obtain ⟨hb, _, _, _⟩ := hinv
      simp only [loopCycleN, List.foldl_nil, List.length_nil]
      omega
    | cons inp l ih =>
      intro cs hinv hall
      have href := hall cs inp (List.mem_cons_self inp l)
      have hdry := hdry_of cs inp hinv.2.2.1 href
      have hstep := (loopCycle1_dry_spec cs inp hdry).2.2
      have hinv2 := channelInv_loopCycle1 cs inp hinv
      have hmax2 := (loopCycle1_config cs inp).1
      have hrec := ih (loopCycle1 cs inp) hinv2
        (fun cs2 inp2 h2 => hall cs2 inp2 (List.mem_cons_of_mem inp h2))
      have hfold : loopCycleN cs (inp :: l) =
          loopCycleN (loopCycle1 cs inp) l := by
        simp [loopCycleN]
      rw [hfold, hrec, hstep, hmax2, List.length_cons]
      obtain ⟨hb, h255, _, _⟩ := hinv
      rcases Nat.lt_or_ge cs.pump_attempts cs.max_pump_attempts with h | h
      · rw [if_pos h]
        omega
      · rw [if_neg (by omega)]
        omega
  refine ⟨?_, ?_, ?_, fun cs l hinv hall => main l cs hinv hall⟩
  · intro inp h
    have h0 := h 0 (by norm_num [NUMBER_OF_MEASUREMENT_SAMPLES])
    have h1 := h 1 (by norm_num [NUMBER_OF_MEASUREMENT_SAMPLES])
    have h2 := h 2 (by norm_num [NUMBER_OF_MEASUREMENT_SAMPLES])
    have h3 := h 3 (by norm_num [NUMBER_OF_MEASUREMENT_SAMPLES])
    rw [measuredRefPercent, measuredRawRef, sampleSum_eq]
    simp only [NUMBER_OF_MEASUREMENT_SAMPLES]
    omega
  · intro s hs cs hcs
    exact (reachable_channelInv s hs cs hcs).2.2.1
  · intro cs inp h99 href
    refine ⟨hdry_of cs inp h99 href, ?_⟩
    have hdry := hdry_of cs inp h99 href
    unfold observedDry at hdry
    rw [updateChannel_attempts, if_neg (by omega)]

/-- Witness for C10: a potentiometer pegged at raw 1023 yields reference
percent 102; on channel 0's initial state four such dry cycles pin the
counter at the maximum of 3. -/
theorem C10_witness :
    measuredRefPercent (constInput 0 1023) ≤ 102 ∧
    (⟨10, 3, 0, 99, 0, 25⟩ : ChannelState_T).moisture_level ≤ 99 ∧
    (observedDry ⟨10, 3, 2, 0, 660, 25⟩ (constInput 660 1023) ∧
      ((updateChannel ⟨10, 3, 2, 0, 660, 25⟩
          (constInput 660 1023)).1).pump_attempts
        = (⟨10, 3, 2, 0, 660, 25⟩ : ChannelState_T).pump_attempts) ∧
    (loopCycleN ⟨10, 3, 0, 99, 0, 25⟩
        (List.replicate 4 (constInput 660 1023))).pump_attempts
      = min (0 + 4) 3 :=
  ⟨C10_reference_above_99_locks_exhaustion.1 (constInput 0 1023)
      (fun j _ => by norm_num [constInput]),
   C10_reference_above_99_locks_exhaustion.2.1 channel_state_init
      Reachable.init ⟨10, 3, 0, 99, 0, 25⟩ (by simp [channel_state_init]),
   C10_reference_above_99_locks_exhaustion.2.2.1 ⟨10, 3, 2, 0, 660, 25⟩
      (constInput 660 1023) (by norm_num)
      (by rw [updateChannel_ref,
            measuredRefPercent_const _ _ (by norm_num)]
          decide),
   C10_reference_above_99_locks_exhaustion.2.2.2 ⟨10, 3, 0, 99, 0, 25⟩
      (List.replicate 4 (constInput 660 1023))
      ⟨by norm_num, by norm_num, by norm_num, fun _ => rfl⟩
      (by intro cs2 inp2 hmem
          have heq := List.eq_of_mem_replicate hmem
          subst heq
          rw [updateChannel_ref, measuredRefPercent_const _ _ (by norm_num)]
          split
          · rename_i hae
            simp only [almostEqual, decide_eq_true_eq] at hae
            omega
          · norm_num)⟩

/-- C1: in every reachable state every channel's attempt counter is
bounded by its configured maximum, and across any cycle the counter
never decreases except by the single reset to 0 taken when the channel
is observed at or above its reference (no partial decrement). -/
theorem C1_attempts_bounded_and_never_partially_decremented
    (s : List ChannelState_T) (hs : Reachable s) :
    (∀ cs ∈ s, cs.pump_attempts ≤ cs.max_pump_attempts) ∧
    (∀ inputs : List ChannelInput, inputs.length = s.length →
      ∀ k, ∀ hk : k < s.length,
        ∀ hk2 : k < ((loopCycle s inputs).1).length,
        (s.get ⟨k, hk⟩).pump_attempts ≤
            (((loopCycle s inputs).1).get ⟨k, hk2⟩).pump_attempts ∨
          ((((loopCycle s inputs).1).get ⟨k, hk2⟩).pump_attempts = 0 ∧
            (((loopCycle s inputs).1).get ⟨k, hk2⟩).moisture_reference_level
              ≤ (((loopCycle s inputs).1).get
                  ⟨k, hk2⟩).moisture_level)) := by
  constructor
  · intro cs hcs
    exact (reachable_channelInv s hs cs hcs).1
  · intro inputs hlen k hk hk2
    have hki : k < inputs.length := by omega
    have hinv := reachable_channelInv s hs _ (s.get_mem k hk)
    have hget := loopCycle_fst_getElem s inputs k hk hki
    rw [hget]
    exact cycleChannel_attempts (s.get ⟨k, hk⟩) (inputs.get ⟨k, hki⟩) hinv
      (updateState s inputs).2

/-- Witness for C1: the initial state under one cycle of dry readings on
channel 0. -/
theorem C1_witness :
    (∀ cs ∈ channel_state_init,
        cs.pump_attempts ≤ cs.max_pump_attempts) ∧
    ((channel_state_init.get
          ⟨0, by norm_num [channel_state_init]⟩).pump_attempts ≤
        (((loopCycle channel_state_init
              (List.replicate 4 (constInput 660 400))).1).get
            ⟨0, by rw [loopCycle_fst_length]; decide⟩).pump_attempts ∨
      ((((loopCycle channel_state_init
              (List.replicate 4 (constInput 660 400))).1).get
            ⟨0, by rw [loopCycle_fst_length]; decide⟩).pump_attempts = 0 ∧
        (((loopCycle channel_state_init
              (List.replicate 4 (constInput 660 400))).1).get
            ⟨0, by rw [loopCycle_fst_length]; decide⟩).moisture_reference_level
          ≤ (((loopCycle channel_state_init
              (List.replicate 4 (constInput 660 400))).1).get
            ⟨0, by rw [loopCycle_fst_length]; decide⟩).moisture_level)) :=
  ⟨(C1_attempts_bounded_and_never_partially_decremented
      channel_state_init Reachable.init).1,
   (C1_attempts_bounded_and_never_partially_decremented
      channel_state_init Reachable.init).2
     (List.replicate 4 (constInput 660 400)) rfl 0
     (by norm_num [channel_state_init])
     (by rw [loopCycle_fst_length]; decide)⟩

/-- C5: in a cycle where every channel's moisture and reference readings
pass the hysteresis filter unchanged and no channel is below its
reference, `updateState` returns false and the cycle performs neither a
render nor any pump actuation, leaving all channel state unchanged. -/
theorem C5_quiet_cycle_skips_render_and_pumps
    (s : List ChannelState_T) (hs : Reachable s)
    (inputs : List ChannelInput) (hlen : inputs.length = s.length)
    (hquiet : ∀ k, ∀ hk : k < s.length, ∀ hki : k < inputs.length,
      almostEqual (s.get ⟨k, hk⟩).moisture_level
          (measuredPercent (inputs.get ⟨k, hki⟩)) 2 = true ∧
      almostEqual (s.get ⟨k, hk⟩).moisture_reference_level
          (measuredRefPercent (inputs.get ⟨k, hki⟩)) 2 = true ∧
      (s.get ⟨k, hk⟩).moisture_reference_level ≤
        (s.get ⟨k, hk⟩).moisture_level) :
    (updateState s inputs).2 = false ∧ loopCycle s inputs = (s, []) := by
  have hchan : ∀ k, ∀ hk : k < s.length, ∀ hki : k < inputs.length,
      updateChannel (s.get ⟨k, hk⟩) (inputs.get ⟨k, hki⟩)
        = (s.get ⟨k, hk⟩, false) := by
    intro k hk hki
    obtain ⟨q1, q2, q3⟩ := hquiet k hk hki
    have hinv := reachable_channelInv s hs _ (s.get_mem k hk)
    exact updateChannel_quiet _ _ (hinv.2.2.2 q3) q1 q2 q3
  have hflag : (updateState s inputs).2 = false := by
    cases hfl : (updateState s inputs).2 with
    | false => rfl
    | true =>
      obtain ⟨k, hk, hki, ht⟩ := (updateState_snd s inputs).1 hfl
      rw [hchan k hk hki] at ht
      simp at ht
  have hfst : (updateState s inputs).1 = s := by
    apply List.ext_get
    · rw [updateState_fst_length]
      omega
    · intro n h1 h2
      have h3 : n < inputs.length := by omega
      exact (updateState_fst_getElem s inputs n h2 h3).trans
        (by rw [hchan n h2 h3])
  have h5 := loopCycle_fst s inputs
  rw [hflag] at h5
  simp only [Bool.false_eq_true, if_false] at h5
  have h6 := loopCycle_snd s inputs
  rw [hflag] at h6
  simp only [Bool.false_eq_true, if_false] at h6
  refine ⟨hflag, ?_⟩
  rw [Prod.ext_iff]
  exact ⟨h5.trans hfst, h6⟩

/-- Witness for C5: the initial state sampled at raw 150 (its stored
99%) with the potentiometer at raw 250 (its stored 25%). -/
theorem C5_witness :
    (updateState channel_state_init
        (List.replicate 4 (constInput 150 250))).2 = false ∧
    loopCycle channel_state_init (List.replicate 4 (constInput 150 250))
      = (channel_state_init, []) :=
  C5_quiet_cycle_skips_render_and_pumps channel_state_init Reachable.init
    (List.replicate 4 (constInput 150 250)) rfl
    (by
      intro k hk hki
      have hsk : channel_state_init.get ⟨k, hk⟩ = ⟨10, 3, 0, 99, 0, 25⟩ := by
        have hall : ∀ x ∈ channel_state_init, x = ⟨10, 3, 0, 99, 0, 25⟩ := by
          decide
        exact hall _ (channel_state_init.get_mem k hk)
      have hik : (List.replicate 4 (constInput 150 250)).get ⟨k, hki⟩
          = constInput 150 250 := by
        rw [List.get_eq_getElem, List.getElem_replicate]
      rw [hsk, hik]
      refine ⟨?_, ?_, ?_⟩
      · rw [measuredPercent_const _ _ (by norm_num),
          convertMeasurementToPercent_eval]
        decide
      · rw [measuredRefPercent_const _ _ (by norm_num)]
        decide
      · decide)

/-- C6: whenever at least one channel is observed below its reference
after sampling, `updateState` returns true — even with no value change —
so the cycle renders the display and runs the pump-evaluation pass. -/
theorem C6_below_reference_forces_update
    (s : List ChannelState_T) (inputs : List ChannelInput)
    (k : Nat) (hk : k < s.length) (hki : k < inputs.length)
    (hdry : observedDry (s.get ⟨k, hk⟩) (inputs.get ⟨k, hki⟩)) :
    (updateState s inputs).2 = true ∧
    (loopCycle s inputs).2 =
      Event.render (((updateState s inputs).1).map displayRow)
        :: pumpEvents (runPumps (updateState s inputs).1).2 := by
  have hflag : (updateState s inputs).2 = true :=
    (updateState_snd s inputs).2
      ⟨k, hk, hki, updateChannel_flag_of_dry _ _ hdry⟩
  exact ⟨hflag, by rw [loopCycle_snd, if_pos hflag]⟩

/-- Witness for C6: a single exhausted channel at a stable dry reading. -/
theorem C6_witness :
    (updateState [(⟨10, 3, 3, 0, 660, 40⟩ : ChannelState_T)]
        [constInput 660 400]).2 = true ∧
    (loopCycle [(⟨10, 3, 3, 0, 660, 40⟩ : ChannelState_T)]
        [constInput 660 400]).2 =
      Event.render (((updateState [(⟨10, 3, 3, 0, 660, 40⟩ : ChannelState_T)]
            [constInput 660 400]).1).map displayRow)
        :: pumpEvents (runPumps (updateState
            [(⟨10, 3, 3, 0, 660, 40⟩ : ChannelState_T)]
            [constInput 660 400]).1).2 :=
  C6_below_reference_forces_update
    [(⟨10, 3, 3, 0, 660, 40⟩ : ChannelState_T)] [constInput 660 400]
    0 (by norm_num) (by norm_num)
    (by
      show observedDry ⟨10, 3, 3, 0, 660, 40⟩ (constInput 660 400)
      unfold observedDry
      rw [updateChannel_const_eval _ 660 400 (by norm_num) (by norm_num),
        convertMeasurementToPercent_eval]
      decide)

/-- C7: in every cycle that reports an update, the render happens
strictly before any pump actuation — the event trace is the render of
the sampled state followed only by pump events — and the attempt count
rendered for a channel whose pump fires this cycle is the count before
this cycle's increment. -/
theorem C7_render_happens_before_actuation
    (s : List ChannelState_T) (inputs : List ChannelInput)
    (hupd : (updateState s inputs).2 = true) :
    (loopCycle s inputs).2 =
      Event.render (((updateState s inputs).1).map displayRow)
        :: pumpEvents (runPumps (updateState s inputs).1).2 ∧
    (∀ e ∈ pumpEvents (runPumps (updateState s inputs).1).2,
        ∃ j, e = Event.pump j) ∧
    (∀ k, ∀ hk : k < ((updateState s inputs).1).length,
      (displayRow (((updateState s inputs).1).get ⟨k, hk⟩)).pump_attempts
          = (((updateState s inputs).1).get ⟨k, hk⟩).pump_attempts ∧
      ((runPumpChannel (((updateState s inputs).1).get ⟨k, hk⟩)).2 = true →
        ((runPumpChannel (((updateState s inputs).1).get
            ⟨k, hk⟩)).1).pump_attempts
          = ((displayRow (((updateState s inputs).1).get
              ⟨k, hk⟩)).pump_attempts + 1) % 256)) := by
  refine ⟨by rw [loopCycle_snd, if_pos hupd], ?_, ?_⟩
  · intro e he
    rw [pumpEvents, List.mem_filterMap] at he
    obtain ⟨p, hp, hsome⟩ := he
    by_cases hb : p.2 = true
    · rw [if_pos hb] at hsome
      exact ⟨p.1, (Option.some_inj.1 hsome).symm⟩
    · rw [if_neg hb] at hsome
      exact absurd hsome (by simp)
  · intro k hk
    refine ⟨rfl, ?_⟩
    intro hfire
    rw [runPumpChannel_eq] at hfire
    by_cases hc : (((updateState s inputs).1).get
          ⟨k, hk⟩).moisture_level <
        (((updateState s inputs).1).get ⟨k, hk⟩).moisture_reference_level ∧
        (((updateState s inputs).1).get ⟨k, hk⟩).pump_attempts <
        (((updateState s inputs).1).get ⟨k, hk⟩).max_pump_attempts
    · rw [runPumpChannel_eq, if_pos hc]
      rfl
    · rw [if_neg hc] at hfire
      exact absurd hfire (by simp)

/-- Witness for C7: the same exhausted-plus-dry single channel cycle. -/
theorem C7_witness :
    (loopCycle [(⟨10, 3, 2, 0, 660, 40⟩ : ChannelState_T)]
        [constInput 660 400]).2 =
      Event.render (((updateState [(⟨10, 3, 2, 0, 660, 40⟩ : ChannelState_T)]
            [constInput 660 400]).1).map displayRow)
        :: pumpEvents (runPumps (updateState
            [(⟨10, 3, 2, 0, 660, 40⟩ : ChannelState_T)]
            [constInput 660 400]).1).2 ∧
    (∀ e ∈ pumpEvents (runPumps (updateState
          [(⟨10, 3, 2, 0, 660, 40⟩ : ChannelState_T)]
          [constInput 660 400]).1).2, ∃ j, e = Event.pump j) ∧
    (∀ k, ∀ hk : k < ((updateState
          [(⟨10, 3, 2, 0, 660, 40⟩ : ChannelState_T)]
          [constInput 660 400]).1).length,
      (displayRow (((updateState [(⟨10, 3, 2, 0, 660, 40⟩ : ChannelState_T)]
            [constInput 660 400]).1).get ⟨k, hk⟩)).pump_attempts
          = (((updateState [(⟨10, 3, 2, 0, 660, 40⟩ : ChannelState_T)]
            [constInput 660 400]).1).get ⟨k, hk⟩).pump_attempts ∧
      ((runPumpChannel (((updateState
            [(⟨10, 3, 2, 0, 660, 40⟩ : ChannelState_T)]
            [constInput 660 400]).1).get ⟨k, hk⟩)).2 = true →
        ((runPumpChannel (((updateState
            [(⟨10, 3, 2, 0, 660, 40⟩ : ChannelState_T)]
            [constInput 660 400]).1).get ⟨k, hk⟩)).1).pump_attempts
          = ((displayRow (((updateState
              [(⟨10, 3, 2, 0, 660, 40⟩ : ChannelState_T)]
              [constInput 660 400]).1).get
              ⟨k, hk⟩)).pump_attempts + 1) % 256)) :=
  C7_render_happens_before_actuation
    [(⟨10, 3, 2, 0, 660, 40⟩ : ChannelState_T)] [constInput 660 400]
    ((updateState_snd _ _).2
      ⟨0, by norm_num, by norm_num,
        updateChannel_flag_of_dry _ _
          (by
            show observedDry ⟨10, 3, 2, 0, 660, 40⟩ (constInput 660 400)
            exact wit_dry3)⟩)
